import Mathlib

/-!
Verification of the realtime voice session core of memory-star-mvp
(`src/memory_star/voice.py`), shallowly embedded: the handler state is passed
explicitly, websocket traffic is a list of typed frames/events, and the
`async for` receive loops are folds over the list of inbound messages with an
explicit flag saying whether the stream has closed.
-/

namespace MemoryStar

/-- The `VoiceProvider` enum of voice.py. -/
inductive VoiceProvider
  | openai
  | gemini
  | mock
deriving DecidableEq, Repr

/-- The `VoiceConfig` dataclass of voice.py, with its field defaults.
`vad_threshold` (a Python float, default 0.5) is modelled as a rational. -/
structure VoiceConfig where
  provider : VoiceProvider
  api_key : Option String := none
  model : Option String := none
  voice : String := "alloy"
  language : String := "zh"
  sample_rate : Nat := 24000
  channels : Nat := 1
  enable_vad : Bool := true
  vad_threshold : Rat := 1/2
deriving DecidableEq, Repr

/-- Python `str.lower()`, modelled as ASCII per-character lowercasing — the
only strings it is compared against in the source ("openai", "gemini") are
ASCII, so the restriction is faithful there. -/
def pyLower (s : String) : String := ⟨s.data.map Char.toLower⟩

/-- `VoiceConfig.from_env`: the environment variables `VOICE_PROVIDER`,
`VOICE_NAME`, `VOICE_LANGUAGE`, `OPENAI_API_KEY`, `GEMINI_API_KEY` are passed
in as parameters (`provider_str` already carries the `"mock"` default of
`os.getenv("VOICE_PROVIDER", "mock")`). Any string other than `"openai"` or
`"gemini"` (after lowercasing) selects the mock provider. -/
def VoiceConfig.from_env (provider_str voice_name voice_language : String)
    (openai_key gemini_key : Option String) : VoiceConfig :=
  let p := pyLower provider_str
  if p = "openai" then
    { provider := .openai, api_key := openai_key,
      model := some "gpt-4o-realtime-preview",
      voice := voice_name, language := voice_language }
  else if p = "gemini" then
    { provider := .gemini, api_key := gemini_key,
      model := some "gemini-2.0-flash-exp",
      voice := voice_name, language := voice_language }
  else
    { provider := .mock, api_key := none, model := none,
      voice := voice_name, language := voice_language }

/-- The three concrete handler classes a `create_voice_handler` call can
return. -/
inductive HandlerKind
  | openaiHandler
  | geminiHandler
  | mockHandler
deriving DecidableEq, Repr

/-- `create_voice_handler`: the factory dispatch on `config.provider`. -/
def create_voice_handler (config : VoiceConfig) : HandlerKind :=
  match config.provider with
  | .openai => .openaiHandler
  | .gemini => .geminiHandler
  | .mock => .mockHandler

/-- Outbound JSON frames sent by `OpenAIVoiceHandler` on the websocket.
`input_audio_buffer_append` carries `base64.b64encode(audio_data)`; we carry
the raw audio bytes (as a list of byte values) since the encoding is a
bijection applied at the wire boundary. `session_update` carries exactly the
fields of the `config_msg` dict built in `connect` that derive from the
configuration: voice, input/output audio format, VAD threshold, and the fixed
padding (300 ms) and silence duration (500 ms). -/
inductive Frame
  | session_update (voice : String) (input_audio_format output_audio_format : String)
      (vad_threshold : Rat) (padding_ms silence_duration_ms : Nat)
  | input_audio_buffer_append (audio_data : List Nat)
  | input_audio_buffer_commit
  | response_create
deriving DecidableEq, Repr

/-- The mutable state of an `OpenAIVoiceHandler`: its config, whether
`self.ws` holds an open websocket (`ws = true` iff `self.ws is not None`) and
the `is_listening` flag from `BaseVoiceHandler`. -/
structure OpenAIState where
  config : VoiceConfig
  ws : Bool := false
  is_listening : Bool := false
deriving DecidableEq, Repr

/-- `OpenAIVoiceHandler.connect`: raises `ValueError` when no API key is
configured; otherwise opens the websocket and sends exactly one
`session.update` frame built from the config. Returns the new state and the
frames sent, or the error message. -/
def OpenAIState.connect (s : OpenAIState) : Except String (OpenAIState × List Frame) :=
  match s.config.api_key with
  | none => .error "OpenAI API key not configured"
  | some _ =>
      .ok ({ s with ws := true },
        [Frame.session_update s.config.voice "pcm16" "pcm16"
          s.config.vad_threshold 300 500])

/-- `OpenAIVoiceHandler.disconnect`: `if self.ws: await self.ws.close();
self.ws = None`. The boolean result records whether `ws.close()` was invoked
on this call. -/
def OpenAIState.disconnect (s : OpenAIState) : OpenAIState × Bool :=
  if s.ws then ({ s with ws := false }, true) else (s, false)

/-- An inbound realtime event as the receive loops see it: `data["type"]`,
`data.get("delta", "")` and `data.get("transcript", "")`. -/
structure RealtimeEvent where
  type : String
  delta : String := ""
  transcript : String := ""
deriving DecidableEq, Repr

/-- A `response.text.delta` event carrying `d`. -/
def mkDelta (d : String) : RealtimeEvent :=
  { type := "response.text.delta", delta := d }

/-- A `response.done` event. -/
def doneEvent : RealtimeEvent :=
  { type := "response.done" }

/-- Outcome of the `async for message in self.ws` loop inside `send_audio`:
either the coroutine returned a transcript (via `response.done`, or because
the stream closed and the iteration ended), or it is still suspended waiting
for the next message with the transcript accumulated so far. -/
inductive RecvOutcome
  | returned (transcript : String)
  | waiting (transcript : String)
deriving DecidableEq, Repr

/-- The receive loop of `send_audio`: fold over the inbound messages that
arrive, appending each `response.text.delta` to `transcript` and returning on
`response.done`. If the available messages run out without `response.done`,
the loop returns the accumulated transcript when the stream has closed (the
`async for` ends) and otherwise keeps waiting — there is no timeout branch in
the source. -/
def recvTranscript (transcript : String) (msgs : List RealtimeEvent)
    (stream_closed : Bool) : RecvOutcome :=
  match msgs with
  | [] => if stream_closed then .returned transcript else .waiting transcript
  | e :: rest =>
      if e.type = "response.text.delta" then
        recvTranscript (transcript ++ e.delta) rest stream_closed
      else if e.type = "response.done" then
        .returned transcript
      else
        recvTranscript transcript rest stream_closed

/-- `OpenAIVoiceHandler.send_audio`: `if not self.ws: await self.connect()`
(implicit lazy connect), then send append/commit/response.create frames and
run the receive loop. Returns the new state, all frames sent (including those
of an implicit connect), and the receive outcome. -/
def OpenAIState.send_audio (s : OpenAIState) (audio_data : List Nat)
    (msgs : List RealtimeEvent) (stream_closed : Bool) :
    Except String (OpenAIState × List Frame × RecvOutcome) :=
  match (if s.ws then Except.ok (s, ([] : List Frame)) else s.connect) with
  | .error e => .error e
  | .ok (s1, pre) =>
      .ok (s1,
        pre ++ [Frame.input_audio_buffer_append audio_data,
                Frame.input_audio_buffer_commit, Frame.response_create],
        recvTranscript "" msgs stream_closed)

/-- One item of the `async for message in self.ws` iteration inside
`stream_conversation`: either a message arrives, or the iteration raises an
exception (e.g. a transport failure). -/
inductive StreamItem
  | msg (e : RealtimeEvent)
  | raise (reason : String)
deriving DecidableEq, Repr

/-- Result of `stream_conversation`: the `on_text` callback arguments in
order, the `on_audio` callback arguments in order (we carry the base64 `delta`
payload that `base64.b64decode` is applied to), the exception caught by the
`except` clause if any, and the final `is_listening` flag. -/
structure StreamResult where
  texts : List String
  audio_b64 : List String
  caught : Option String
  is_listening : Bool
deriving DecidableEq, Repr

/-- The try-body of `stream_conversation`: dispatch each inbound message to
the callbacks; an exception from the iteration stops the loop and is caught
by the `except Exception` clause (third component). No branch sends a frame,
calls `connect`, or re-raises. -/
def streamBody : List StreamItem → List String × List String × Option String
  | [] => ([], [], none)
  | .raise r :: _ => ([], [], some r)
  | .msg e :: rest =>
      let out := streamBody rest
      if e.type = "conversation.item.input_audio_transcription.completed" then
        (("[用户] " ++ e.transcript) :: out.1, out.2.1, out.2.2)
      else if e.type = "response.text.delta" then
        (e.delta :: out.1, out.2.1, out.2.2)
      else if e.type = "response.audio.delta" then
        (out.1, e.delta :: out.2.1, out.2.2)
      else if e.type = "response.done" then
        ("\n" :: out.1, out.2.1, out.2.2)
      else out

/-- `OpenAIVoiceHandler.stream_conversation`: lazily connects if `self.ws` is
`None` (a missing API key raises outside the try block), sets
`is_listening = True`, runs the receive loop inside try/except, and the
`finally` clause resets `is_listening = False`. Returns the final state, the
frames sent (only those of an implicit initial connect — the loop itself sends
nothing), and the loop result. -/
def OpenAIState.stream_conversation (s : OpenAIState) (items : List StreamItem) :
    Except String (OpenAIState × List Frame × StreamResult) :=
  match (if s.ws then Except.ok (s, ([] : List Frame)) else s.connect) with
  | .error e => .error e
  | .ok (s1, pre) =>
      let body := streamBody items
      .ok ({ s1 with is_listening := false }, pre,
        { texts := body.1, audio_b64 := body.2.1, caught := body.2.2,
          is_listening := false })

/-- `MockVoiceHandler.connect`: `pass` — always succeeds, performs no network
activity (no frames are sent). -/
def mock_connect : Except String (List Frame) := .ok []

/-- `MockVoiceHandler.send_audio`: ignores the audio and the handler flags and
returns the fixed sentinel string. -/
def mock_send_audio (_audio_data : List Nat) (_is_listening _is_speaking : Bool) :
    String :=
  "[语音模式未启用，请输入文字]"

/-- `MockVoiceHandler.speak`: prints `[语音输出] {text}` and returns the empty
byte string. Result: the printed line and the returned audio bytes. -/
def mock_speak (text : String) : String × List Nat :=
  ("[语音输出] " ++ text, [])

/-- The `DesktopAdapter` attributes set in its `__init__`. -/
structure DesktopAdapter where
  sample_rate : Nat
  channels : Nat
  dtype : String
deriving DecidableEq, Repr

/-- `DesktopAdapter.__init__`: hardcodes 24000 Hz, mono, int16. It takes no
configuration and performs no validation against `VoiceConfig`. -/
def mkDesktopAdapter : DesktopAdapter :=
  { sample_rate := 24000, channels := 1, dtype := "int16" }

/-- One entry of `VoiceInterface.conversation_history`. -/
structure TurnRecord where
  user_audio : List Nat
  ai_text : String
  ai_audio : List Nat
deriving DecidableEq, Repr

/-- The state of a `VoiceInterface` built over the OpenAI handler (the
platform adapter is the stateless `DesktopAdapter`). -/
structure InterfaceState where
  voice : OpenAIState
  history : List TurnRecord
deriving DecidableEq, Repr

/-- `VoiceInterface.stop_conversation`: `await self.voice.disconnect()` then
print the goodbye line. Returns the new state, whether `ws.close()` was
invoked, and the printed line. -/
def stop_conversation (st : InterfaceState) : InterfaceState × Bool × String :=
  let d := st.voice.disconnect
  ({ st with voice := d.1 }, d.2, "👋 语音对话已结束")

/-- The externally observable actions `speak_turn` performs, in order. -/
inductive TurnAction
  | speak_prompt (text : String)
  | record (duration : Rat)
  | send (audio : List Nat)
  | speak_reply (text : String)
  | play (audio : List Nat)
deriving DecidableEq, Repr

/-- Result of a `speak_turn` call: completed normally, blocked suspended in
the receive loop of `send_audio`, or a Python exception propagated. -/
inductive SpeakTurnResult
  | completed (st : InterfaceState) (actions : List TurnAction) (response : String)
  | blocked (actions : List TurnAction)
  | raised (msg : String)
deriving DecidableEq, Repr

/-- Whether a `speak_turn` call raised an exception. -/
def SpeakTurnResult.isRaised : SpeakTurnResult → Bool
  | .raised _ => true
  | _ => false

/-- The actions a `speak_turn` call performed (up to the point it blocked, if
it blocked). -/
def SpeakTurnResult.actions : SpeakTurnResult → List TurnAction
  | .completed _ acts _ => acts
  | .blocked acts => acts
  | .raised _ => []

/-- `VoiceInterface.speak_turn`: unconditionally (1) speaks the optional
prompt, (2) records 10.0 s of audio (`recorded` is what the platform
returns), (3) sends it via `send_audio`, (4) synthesizes the reply (`tts` is
the TTS oracle) and plays it, (5) appends to `conversation_history`. There is
no check of any in-flight-turn or session state anywhere in the source. -/
def speak_turn (st : InterfaceState) (prompt_text : Option String)
    (recorded : List Nat) (msgs : List RealtimeEvent) (stream_closed : Bool)
    (tts : String → List Nat) : SpeakTurnResult :=
  let pre := (match prompt_text with
    | some t => [TurnAction.speak_prompt t]
    | none => []) ++ [TurnAction.record 10]
  match st.voice.send_audio recorded msgs stream_closed with
  | .error e => .raised e
  | .ok (_, _, .waiting _) => .blocked (pre ++ [TurnAction.send recorded])
  | .ok (v1, _, .returned response_text) =>
      let response_audio := tts response_text
      .completed
        { voice := v1,
          history := st.history ++
            [{ user_audio := recorded, ai_text := response_text,
               ai_audio := response_audio }] }
        (pre ++ [TurnAction.send recorded, TurnAction.speak_reply response_text,
                 TurnAction.play response_audio])
        response_text

/-- The receive loop on a run of pure delta events: it accumulates their
concatenation and then waits (stream open) or returns it (stream closed). -/
theorem recvTranscript_deltas (t : String) (ds : List String) (c : Bool) :
    recvTranscript t (ds.map mkDelta) c =
      if c then RecvOutcome.returned (ds.foldl (fun a d => a ++ d) t)
      else RecvOutcome.waiting (ds.foldl (fun a d => a ++ d) t) := by
  induction ds generalizing t with
  | nil => cases c <;> simp [recvTranscript]
  | cons d rest ih => simp [recvTranscript, mkDelta, ih]

/-- The receive loop on delta events followed by `response.done` returns the
concatenation of the deltas appended to the accumulator. -/
theorem recvTranscript_deltas_done (t : String) (ds : List String) (c : Bool) :
    recvTranscript t (ds.map mkDelta ++ [doneEvent]) c =
      RecvOutcome.returned (ds.foldl (fun a d => a ++ d) t) := by
  induction ds generalizing t with
  | nil => simp [recvTranscript, doneEvent]
  | cons d rest ih => simp [recvTranscript, mkDelta, ih]

/-- C1: for every sequence of transcript-delta fragments followed by
`response.done`, the assembled reply text equals the concatenation of the
delta texts in arrival order, verbatim, with no deduplication and no
reordering; in particular deltas "你好" then "，请讲" followed by completion
yield exactly "你好，请讲". -/
theorem transcript_is_concat_of_deltas :
    (∀ (ds : List String) (c : Bool),
      recvTranscript "" (ds.map mkDelta ++ [doneEvent]) c =
        RecvOutcome.returned (ds.foldl (fun a d => a ++ d) "")) ∧
    recvTranscript "" [mkDelta "你好", mkDelta "，请讲", doneEvent] true =
      RecvOutcome.returned "你好，请讲" := by
  refine ⟨fun ds c => recvTranscript_deltas_done "" ds c, ?_⟩
  rfl

/-- C2 counterexample: after the audio commit, if no inbound fragment arrives
and no `response.done` is received (stream still open), the receive loop of
`send_audio` is still waiting — the turn does not finalize, and no
`timed_out` flag exists anywhere in the result (`RecvOutcome` carries only
the transcript, because the source returns only the transcript string). -/
theorem no_silence_timeout_counterexample :
    recvTranscript "" [] false = RecvOutcome.waiting "" := rfl

/-- C2 amended: `send_audio` has no silence-window timeout and no `timed_out`
flag: its receive loop finalizes only on `response.done` or when the stream
closes (returning the text accumulated so far); on an open, silent stream it
waits indefinitely. -/
theorem send_audio_finalizes_only_on_done_or_close :
    ∀ (ds : List String),
      recvTranscript "" (ds.map mkDelta) false =
        RecvOutcome.waiting (ds.foldl (fun a d => a ++ d) "") ∧
      recvTranscript "" (ds.map mkDelta) true =
        RecvOutcome.returned (ds.foldl (fun a d => a ++ d) "") := by
  intro ds
  constructor <;> simp [recvTranscript_deltas]

/-- C3 counterexample: on a retryable transport failure ("connection reset")
raised while a turn is in flight (websocket open, listening), the code
attempts zero reconnects — no frame is sent, the socket state is untouched —
and the failure is not surfaced: `stream_conversation` returns normally with
the exception merely caught (and printed), contradicting "exactly one
automatic silent reconnect is attempted ... the failure is surfaced". -/
theorem no_reconnect_counterexample :
    OpenAIState.stream_conversation
      { config := { provider := .openai, api_key := some "sk-test" },
        ws := true, is_listening := true }
      [StreamItem.raise "connection reset"] =
    Except.ok
      ({ config := { provider := .openai, api_key := some "sk-test" },
         ws := true, is_listening := false },
       [],
       { texts := [], audio_b64 := [], caught := some "connection reset",
         is_listening := false }) := rfl

/-- C3 amended: no automatic reconnect is ever attempted: whatever happens on
an open connection during `stream_conversation` — including a transport
failure raised mid-stream — the loop sends no frame, never re-establishes the
connection, returns normally with any exception caught (never surfaced to the
caller), and ends with `is_listening = false`. -/
theorem stream_error_caught_never_retried (s : OpenAIState)
    (items : List StreamItem) (h : s.ws = true) :
    s.stream_conversation items =
      Except.ok ({ s with is_listening := false }, [],
        { texts := (streamBody items).1, audio_b64 := (streamBody items).2.1,
          caught := (streamBody items).2.2, is_listening := false }) := by
  simp [OpenAIState.stream_conversation, h]

/-- Witness for C3's amended theorem at a concrete failing stream. -/
theorem stream_error_caught_never_retried_witness :
    ({ config := { provider := .openai, api_key := some "k" }, ws := true,
       is_listening := true } : OpenAIState).ws = true ∧
    OpenAIState.stream_conversation
      { config := { provider := .openai, api_key := some "k" }, ws := true,
        is_listening := true }
      [StreamItem.raise "timeout"] =
      Except.ok
        ({ config := { provider := .openai, api_key := some "k" }, ws := true,
           is_listening := false },
         [],
         { texts := [], audio_b64 := [], caught := some "timeout",
           is_listening := false }) :=
  ⟨rfl, stream_error_caught_never_retried _ [StreamItem.raise "timeout"] rfl⟩

/-- C4 counterexample: with a turn in flight (`is_listening = true`, socket
open), `speak_turn` does not fail with a state error: it proceeds, performs
transport I/O (the `send` action), plays the reply, and appends to the
history — there is no state check in the source. -/
theorem speak_turn_no_state_check_counterexample :
    speak_turn
      { voice := { config := { provider := .openai, api_key := some "sk-test" },
                   ws := true, is_listening := true },
        history := [] }
      none [1, 2] [doneEvent] false (fun _ => []) =
    SpeakTurnResult.completed
      { voice := { config := { provider := .openai, api_key := some "sk-test" },
                   ws := true, is_listening := true },
        history := [{ user_audio := [1, 2], ai_text := "", ai_audio := [] }] }
      [TurnAction.record 10, TurnAction.send [1, 2], TurnAction.speak_reply "",
       TurnAction.play []]
      "" := rfl

/-- C4 amended: `speak_turn` performs no in-flight-turn check: on any
connected handler state — including one whose `is_listening` flag marks a
stream in progress — it never raises a state error and always performs
transport I/O (sends the recorded audio). -/
theorem speak_turn_never_raises_always_sends (st : InterfaceState)
    (prompt_text : Option String) (recorded : List Nat)
    (msgs : List RealtimeEvent) (stream_closed : Bool)
    (tts : String → List Nat) (h : st.voice.ws = true) :
    (speak_turn st prompt_text recorded msgs stream_closed tts).isRaised = false ∧
    TurnAction.send recorded ∈
      (speak_turn st prompt_text recorded msgs stream_closed tts).actions := by
  have hsa : st.voice.send_audio recorded msgs stream_closed =
      Except.ok (st.voice,
        [Frame.input_audio_buffer_append recorded,
         Frame.input_audio_buffer_commit, Frame.response_create],
        recvTranscript "" msgs stream_closed) := by
    simp [OpenAIState.send_audio, h]
  cases hrc : recvTranscript "" msgs stream_closed with
  | returned t =>
      cases prompt_text <;>
        simp [speak_turn, hsa, hrc, SpeakTurnResult.isRaised,
          SpeakTurnResult.actions]
  | waiting t =>
      cases prompt_text <;>
        simp [speak_turn, hsa, hrc, SpeakTurnResult.isRaised,
          SpeakTurnResult.actions]

/-- Witness for C4's amended theorem on a concrete in-flight state. -/
theorem speak_turn_never_raises_always_sends_witness :
    ({ voice := { config := { provider := .openai, api_key := some "k" },
                  ws := true, is_listening := true },
       history := [] } : InterfaceState).voice.ws = true ∧
    (speak_turn
      { voice := { config := { provider := .openai, api_key := some "k" },
                   ws := true, is_listening := true },
        history := [] }
      none [3] [] false (fun _ => [])).isRaised = false ∧
    TurnAction.send [3] ∈
      (speak_turn
        { voice := { config := { provider := .openai, api_key := some "k" },
                     ws := true, is_listening := true },
          history := [] }
        none [3] [] false (fun _ => [])).actions :=
  ⟨rfl, speak_turn_never_raises_always_sends _ none [3] [] false (fun _ => []) rfl⟩

/-- C5 counterexample: calling `send_audio` on a handler with no open
connection does not fail fast: it implicitly establishes the connection
(sending the handshake) and then sends the audio on it, returning normally —
contradicting "fails fast with a programmer error; the audio is never ...
sent on an implicitly established connection". -/
theorem send_audio_implicit_connect_counterexample :
    OpenAIState.send_audio
      { config := { provider := .openai, api_key := some "sk-test" }, ws := false }
      [0, 1] [doneEvent] false =
    Except.ok
      ({ config := { provider := .openai, api_key := some "sk-test" }, ws := true },
       [Frame.session_update "alloy" "pcm16" "pcm16" (1/2) 300 500,
        Frame.input_audio_buffer_append [0, 1],
        Frame.input_audio_buffer_commit, Frame.response_create],
       RecvOutcome.returned "") := rfl

/-- C5 amended: `send_audio` on a handler with no open connection does not
fail fast: whenever an API key is configured it implicitly calls `connect()`
and then sends the audio on the newly established connection (only a missing
API key makes the implicit connect raise). -/
theorem send_audio_connects_implicitly (s : OpenAIState) (audio : List Nat)
    (msgs : List RealtimeEvent) (c : Bool) (k : String)
    (hws : s.ws = false) (hk : s.config.api_key = some k) :
    s.send_audio audio msgs c =
      Except.ok ({ s with ws := true },
        [Frame.session_update s.config.voice "pcm16" "pcm16"
           s.config.vad_threshold 300 500,
         Frame.input_audio_buffer_append audio,
         Frame.input_audio_buffer_commit, Frame.response_create],
        recvTranscript "" msgs c) := by
  simp [OpenAIState.send_audio, OpenAIState.connect, hws, hk]

/-- Witness for C5's amended theorem on a concrete disconnected handler. -/
theorem send_audio_connects_implicitly_witness :
    ({ config := { provider := .openai, api_key := some "k" },
       ws := false } : OpenAIState).ws = false ∧
    ({ config := { provider := .openai, api_key := some "k" },
       ws := false } : OpenAIState).config.api_key = some "k" ∧
    OpenAIState.send_audio
      { config := { provider := .openai, api_key := some "k" }, ws := false }
      [7] [] true =
      Except.ok
        ({ config := { provider := .openai, api_key := some "k" }, ws := true },
         [Frame.session_update "alloy" "pcm16" "pcm16" (1/2) 300 500,
          Frame.input_audio_buffer_append [7],
          Frame.input_audio_buffer_commit, Frame.response_create],
         RecvOutcome.returned "") :=
  ⟨rfl, rfl, send_audio_connects_implicitly _ [7] [] true "k" rfl rfl⟩

/-- C6 counterexample: the single handshake frame does not carry the
configured language: two configurations that differ only in the language tag
("zh" vs "en") produce the identical session-configure frame, contradicting
"that frame carries the configured voice, language, turn-detection threshold,
and audio format". -/
theorem handshake_omits_language_counterexample :
    (OpenAIState.connect
      { config := { provider := .openai, api_key := some "sk-test",
                    language := "zh" }, ws := false }).map Prod.snd =
      Except.ok [Frame.session_update "alloy" "pcm16" "pcm16" (1/2) 300 500] ∧
    (OpenAIState.connect
      { config := { provider := .openai, api_key := some "sk-test",
                    language := "en" }, ws := false }).map Prod.snd =
      Except.ok [Frame.session_update "alloy" "pcm16" "pcm16" (1/2) 300 500] :=
  ⟨rfl, rfl⟩

/-- C6 amended: every successful connect sends exactly one session-configure
handshake frame before any audio frame, carrying the configured voice, the
turn-detection threshold, and the pcm16 audio format — but not the configured
language tag; a subsequent `send_audio` on the connected handler sends only
audio frames (append, commit, response-request), never another handshake. -/
theorem connect_sends_one_handshake_before_audio (cfg : VoiceConfig)
    (il : Bool) (k : String) (hk : cfg.api_key = some k) :
    OpenAIState.connect { config := cfg, ws := false, is_listening := il } =
      Except.ok ({ config := cfg, ws := true, is_listening := il },
        [Frame.session_update cfg.voice "pcm16" "pcm16" cfg.vad_threshold
           300 500]) ∧
    ∀ (audio : List Nat) (msgs : List RealtimeEvent) (c : Bool),
      OpenAIState.send_audio { config := cfg, ws := true, is_listening := il }
        audio msgs c =
        Except.ok ({ config := cfg, ws := true, is_listening := il },
          [Frame.input_audio_buffer_append audio,
           Frame.input_audio_buffer_commit, Frame.response_create],
          recvTranscript "" msgs c) := by
  constructor
  · simp [OpenAIState.connect, hk]
  · intro audio msgs c
    simp [OpenAIState.send_audio]

/-- Witness for C6's amended theorem at a concrete configuration. -/
theorem connect_sends_one_handshake_before_audio_witness :
    ({ provider := .openai, api_key := some "k" } : VoiceConfig).api_key
      = some "k" ∧
    (OpenAIState.connect
      { config := { provider := .openai, api_key := some "k" }, ws := false,
        is_listening := false } =
      Except.ok
        ({ config := { provider := .openai, api_key := some "k" }, ws := true,
           is_listening := false },
         [Frame.session_update "alloy" "pcm16" "pcm16" (1/2) 300 500]) ∧
    ∀ (audio : List Nat) (msgs : List RealtimeEvent) (c : Bool),
      OpenAIState.send_audio
        { config := { provider := .openai, api_key := some "k" }, ws := true,
          is_listening := false } audio msgs c =
        Except.ok
          ({ config := { provider := .openai, api_key := some "k" }, ws := true,
             is_listening := false },
           [Frame.input_audio_buffer_append audio,
            Frame.input_audio_buffer_commit, Frame.response_create],
           recvTranscript "" msgs c)) :=
  ⟨rfl, connect_sends_one_handshake_before_audio
    { provider := .openai, api_key := some "k" } false "k" rfl⟩

/-- C7: every provider string other than "openai"/"gemini"
(case-insensitively) deterministically yields the mock handler; on the stub,
`connect()` succeeds without any network frame, and `speak` performs its
observable no-op (printing the text) and returns an empty audio buffer. -/
theorem unknown_provider_falls_back_to_mock (s vn lang t : String)
    (ok gk : Option String)
    (h1 : pyLower s ≠ "openai") (h2 : pyLower s ≠ "gemini") :
    create_voice_handler (VoiceConfig.from_env s vn lang ok gk)
      = HandlerKind.mockHandler ∧
    (VoiceConfig.from_env s vn lang ok gk).provider = VoiceProvider.mock ∧
    mock_connect = Except.ok [] ∧
    mock_speak t = ("[语音输出] " ++ t, []) := by
  refine ⟨?_, ?_, rfl, rfl⟩ <;>
    simp [create_voice_handler, VoiceConfig.from_env, h1, h2]

/-- Witness for C7 at the concrete unknown provider string "bogus". -/
theorem unknown_provider_falls_back_to_mock_witness :
    pyLower "bogus" ≠ "openai" ∧ pyLower "bogus" ≠ "gemini" ∧
    (create_voice_handler
        (VoiceConfig.from_env "bogus" "alloy" "zh" none none)
      = HandlerKind.mockHandler ∧
    (VoiceConfig.from_env "bogus" "alloy" "zh" none none).provider
      = VoiceProvider.mock ∧
    mock_connect = Except.ok [] ∧
    mock_speak "好" = ("[语音输出] " ++ "好", [])) :=
  ⟨by decide, by decide,
   unknown_provider_falls_back_to_mock "bogus" "alloy" "zh" "好" none none
     (by decide) (by decide)⟩

/-- C8: `stop_conversation()` is idempotent: from every state, calling it
twice produces the same terminal state as calling it once, the second call
performs no `ws.close()` (the disconnect guard makes release idempotent) and,
the model being total, raises no error; after one call the socket is
released (`ws = false`). -/
theorem stop_conversation_idempotent (st : InterfaceState) :
    (stop_conversation (stop_conversation st).1).1 = (stop_conversation st).1 ∧
    (stop_conversation (stop_conversation st).1).2.1 = false ∧
    (stop_conversation st).1.voice.ws = false := by
  unfold stop_conversation OpenAIState.disconnect
  by_cases h : st.voice.ws = true <;> simp [h]

/-- C9 counterexample: a configuration whose sample rate (48000) and channel
count (2) both differ from what the desktop audio adapter uses (24000, mono,
hardcoded without reading the config) raises no configuration error before
connecting: construction succeeds and `connect` proceeds normally to the
handshake — contradicting "a configuration error is raised before any
connection is attempted". -/
theorem no_audio_param_validation_counterexample :
    ({ provider := .openai, api_key := some "sk-test", sample_rate := 48000,
       channels := 2 } : VoiceConfig).sample_rate ≠ mkDesktopAdapter.sample_rate ∧
    ({ provider := .openai, api_key := some "sk-test", sample_rate := 48000,
       channels := 2 } : VoiceConfig).channels ≠ mkDesktopAdapter.channels ∧
    OpenAIState.connect
      { config := { provider := .openai, api_key := some "sk-test",
                    sample_rate := 48000, channels := 2 }, ws := false } =
      Except.ok
        ({ config := { provider := .openai, api_key := some "sk-test",
                       sample_rate := 48000, channels := 2 }, ws := true },
         [Frame.session_update "alloy" "pcm16" "pcm16" (1/2) 300 500]) :=
  ⟨by decide, by decide, rfl⟩

/-- C9 amended: no audio-parameter validation exists anywhere: the desktop
adapter hardcodes 24000 Hz / mono / int16 without reading the configuration,
and for every configuration with an API key — whatever its sample rate and
channel count — `connect` succeeds; no configuration error is raised before
(or during) connecting for mismatched audio parameters. -/
theorem audio_params_never_validated (cfg : VoiceConfig) (il : Bool)
    (k : String) (hk : cfg.api_key = some k) :
    mkDesktopAdapter =
      { sample_rate := 24000, channels := 1, dtype := "int16" } ∧
    OpenAIState.connect { config := cfg, ws := false, is_listening := il } =
      Except.ok ({ config := cfg, ws := true, is_listening := il },
        [Frame.session_update cfg.voice "pcm16" "pcm16" cfg.vad_threshold
           300 500]) := by
  refine ⟨rfl, ?_⟩
  simp [OpenAIState.connect, hk]

/-- Witness for C9's amended theorem at a mismatched concrete configuration. -/
theorem audio_params_never_validated_witness :
    ({ provider := .openai, api_key := some "k",
       sample_rate := 44100 } : VoiceConfig).api_key = some "k" ∧
    (mkDesktopAdapter =
      { sample_rate := 24000, channels := 1, dtype := "int16" } ∧
    OpenAIState.connect
      { config := { provider := .openai, api_key := some "k",
                    sample_rate := 44100 }, ws := false,
        is_listening := false } =
      Except.ok
        ({ config := { provider := .openai, api_key := some "k",
                       sample_rate := 44100 }, ws := true,
           is_listening := false },
         [Frame.session_update "alloy" "pcm16" "pcm16" (1/2) 300 500])) :=
  ⟨rfl, audio_params_never_validated
    { provider := .openai, api_key := some "k", sample_rate := 44100 }
    false "k" rfl⟩

/-- C10: in mock mode `send_audio` is a constant function: for every pair of
audio inputs (including empty bytes) and every pair of handler flag states it
returns the identical fixed sentinel "[语音模式未启用，请输入文字]", so the
reply is fully independent of the submitted audio (two-run
noninterference). -/
theorem mock_send_audio_constant (a1 a2 : List Nat) (l1 s1 l2 s2 : Bool) :
    mock_send_audio a1 l1 s1 = "[语音模式未启用，请输入文字]" ∧
    mock_send_audio a1 l1 s1 = mock_send_audio a2 l2 s2 :=
  ⟨rfl, rfl⟩

end MemoryStar
